import Mathlib

/-!
Shallow embedding of the RTP-to-decoder pipeline of the Android
desktop-streaming client (the `webrtc/decoder` family plus the
media-engine adapter): the rate-limited PLI sender
(`webrtc/decoder/rtcp_helper.rs`), the steady-state feeder loop and the
render pump of `start_decoder`, the decoder bootstrap sequencer
`create_media_engine` (`webrtc/decoder/mod.rs`), the `H264Decoder`
configuration gatherer (`webrtc/decoder/h264.rs`), and
`MediaEngine::submit_codec_config` (`media/engine.rs`).

Time is modelled as natural-number milliseconds since the UNIX epoch
(`SystemTime::UNIX_EPOCH` becomes `0`); byte buffers are lists of
naturals; platform surfaces and native windows are opaque natural-number
handles.  External fallible FFI calls whose failure is independent of the
modelled data path (RTCP writes, JNI attachment, input-buffer dequeue)
are not modelled as error sources.
-/

/-- Constants from `webrtc/decoder/mod.rs` (PLI interval in milliseconds). -/
def PLI_INTERVAL : Nat := 50

/-- Constant `NUM_BUFFERED_PACKETS` from `webrtc/decoder/mod.rs`. -/
def NUM_BUFFERED_PACKETS : Nat := 128

/-- Constant `MAX_NALU_SIZE` from `webrtc/decoder/mod.rs`. -/
def MAX_NALU_SIZE : Nat := 250000

/-- Constant `NALU_TYPE_BITMASK` (`0x1F`) from `webrtc/decoder/mod.rs`. -/
def NALU_TYPE_BITMASK : Nat := 31

/-- Constant `NALU_TYPE_IDR_PIC` from `webrtc/decoder/mod.rs`. -/
def NALU_TYPE_IDR_PIC : Nat := 5

/-- The `MediaStatus` error enum of `media/status.rs`; the `Sys` payload
(`NonZeroSysMediaStatus`) is represented by its `i32` discriminant. -/
inductive MediaStatus where
  | Sys (code : Int)
  | AllocationError
  | StringNulError
  | MediaCodecCreationFailed
  | NoAvailableBuffer
deriving DecidableEq, Repr

/-- The `DecoderError` enum of `webrtc/decoder/mod.rs`.  Payloads of the
externally-defined error types (`webrtc::Error`, `jni::errors::Error`)
are opaque naturals.  Note the full constructor list: there is no
variant for a peer disconnect distinct from `ApplicationClosed`. -/
inductive DecoderError where
  | MediaEngine (s : MediaStatus)
  | RtcpSend (e : Nat)
  | AttachThread (e : Nat)
  | SetAspectRatio (e : Nat)
  | UnknownMimeType
  | FailedToGetReceiver
  | NativeWindowCreate
  | NoDecoderFound
  | ApplicationClosed
deriving DecidableEq, Repr

/-- The `MimeType` enum of `media/mime.rs`. -/
inductive MimeType where
  | AudioPcma
  | AudioPcmu
  | AudioOpus
  | VideoAv1
  | VideoH264
  | VideoH265
  | VideoVp8
deriving DecidableEq, Repr

/-- `RateLimitedPli` of `webrtc/decoder/rtcp_helper.rs`: the timestamp of
the last actually-written PLI and the configured minimum interval.  The
RTCP packet payload (a fixed `PictureLossIndication` for the track's
SSRC) carries no state and is omitted. -/
structure RateLimitedPli where
  last_pli_time : Nat
  pli_interval : Nat
deriving DecidableEq, Repr

/-- `RateLimitedPli::new`: `last_pli_time` starts at `UNIX_EPOCH` (= 0). -/
def RateLimitedPli.new (pli_interval : Nat) : RateLimitedPli :=
  { last_pli_time := 0, pli_interval := pli_interval }

/-- `RateLimitedPli::send`: compute `now.duration_since(last_pli_time)`
(defined only when `last_pli_time ≤ now`, mirroring `SystemTime`); write
the PLI and update `last_pli_time` only when the elapsed duration is
strictly greater than `pli_interval`.  The returned boolean records
whether a PLI was actually written to the peer. -/
def RateLimitedPli.send (p : RateLimitedPli) (now : Nat) : Bool × RateLimitedPli :=
  if p.last_pli_time ≤ now then
    if p.pli_interval < now - p.last_pli_time then
      (true, { p with last_pli_time := now })
    else
      (false, p)
  else
    (false, p)

/-- Iterate `RateLimitedPli.send` over a list of call times, returning
each call time annotated with whether that call actually wrote a PLI,
together with the final limiter state. -/
def RateLimitedPli.sendMany (p : RateLimitedPli) : List Nat → List (Nat × Bool) × RateLimitedPli
  | [] => ([], p)
  | t :: ts =>
    let r := p.send t
    let rest := r.2.sendMany ts
    ((t, r.1) :: rest.1, rest.2)

/-- Call times each more than `interval` after the previous one (the
first more than `interval` after the given reference point). -/
def spacedB (interval : Nat) : Nat → List Nat → Bool
  | _, [] => true
  | last, t :: ts => decide (last + interval < t) && spacedB interval t ts

/-- One iteration's input to the steady-state feeder loop of
`start_decoder` (`webrtc/decoder/mod.rs`): either the depacketizer
finished an access unit (`pushOk`, carrying the finished bytes and
whether the subsequent `queue_input_buffer` call succeeds), or it needs
more input, or it failed, or `reorder_buffer.recv()` returned one of the
`ReorderBufferError` variants. -/
inductive FeederInput where
  | pushOk (nalu : List Nat) (queue_ok : Bool)
  | needMoreInput
  | depacketizationError
  | headerParsingError
  | trackRemoteReadError
  | packetTooShort
  | bufferFull
  | otherError
deriving DecidableEq, Repr

/-- Observable result of one feeder-loop iteration: the new
reference-frame gate value, the new PLI limiter state, the access unit
submitted to `queue_input_buffer` (if any), whether `pli.send` was
called, whether it actually wrote a PLI, and whether the depacketizer
was re-wrapped onto a fresh input buffer. -/
structure FeederStepResult where
  has_reference_frame : Bool
  pli : RateLimitedPli
  submitted : Option (List Nat)
  pli_called : Bool
  pli_sent : Bool
  reader_reset : Bool
deriving DecidableEq, Repr

/-- One iteration of the steady-state feeder loop of `start_decoder`
(`webrtc/decoder/mod.rs`, the body of `while !exit.load(..)`).  `none`
models the panic of the out-of-bounds indexing `nalu[4]` when the
finished unit is shorter than 5 bytes.  A failed `queue_input_buffer`
(`queue_ok = false`) is only logged: it changes no state. -/
def feederStep (has_reference_frame : Bool) (pli : RateLimitedPli) (now : Nat) :
    FeederInput → Option FeederStepResult
  | .pushOk nalu _queue_ok =>
    if has_reference_frame = false then
      match nalu[4]? with
      | none => none
      | some b =>
        if b &&& NALU_TYPE_BITMASK ≠ NALU_TYPE_IDR_PIC then
          let r := pli.send now
          some { has_reference_frame := false, pli := r.2, submitted := none,
                 pli_called := true, pli_sent := r.1, reader_reset := true }
        else
          some { has_reference_frame := true, pli := pli, submitted := some nalu,
                 pli_called := false, pli_sent := false, reader_reset := true }
    else
      some { has_reference_frame := true, pli := pli, submitted := some nalu,
             pli_called := false, pli_sent := false, reader_reset := true }
  | .needMoreInput =>
    some { has_reference_frame := has_reference_frame, pli := pli, submitted := none,
           pli_called := false, pli_sent := false, reader_reset := false }
  | .depacketizationError =>
    let r := pli.send now
    some { has_reference_frame := false, pli := r.2, submitted := none,
           pli_called := true, pli_sent := r.1, reader_reset := true }
  | .headerParsingError =>
    let r := pli.send now
    some { has_reference_frame := false, pli := r.2, submitted := none,
           pli_called := true, pli_sent := r.1, reader_reset := true }
  | .trackRemoteReadError =>
    let r := pli.send now
    some { has_reference_frame := false, pli := r.2, submitted := none,
           pli_called := true, pli_sent := r.1, reader_reset := true }
  | .packetTooShort =>
    some { has_reference_frame := has_reference_frame, pli := pli, submitted := none,
           pli_called := false, pli_sent := false, reader_reset := false }
  | .bufferFull =>
    let r := pli.send now
    some { has_reference_frame := false, pli := r.2, submitted := none,
           pli_called := true, pli_sent := r.1, reader_reset := true }
  | .otherError =>
    some { has_reference_frame := has_reference_frame, pli := pli, submitted := none,
           pli_called := false, pli_sent := false, reader_reset := false }

/-- The `MediaPlayerEvent` enum of the platform lifecycle channel; the
Java surface object carried by `SurfaceCreated` is an opaque handle. -/
inductive MediaPlayerEvent where
  | MainActivityDestroyed
  | SurfaceCreated (surface : Nat)
  | SurfaceDestroyed
deriving DecidableEq, Repr

/-- Result of `receiver.try_recv()` on the lifecycle channel. -/
inductive TryRecvResult where
  | ok (msg : MediaPlayerEvent)
  | disconnected
  | empty
deriving DecidableEq, Repr

/-- Observable decoder call made by one render-pump iteration. -/
inductive RenderAction where
  | setOutputSurface (window : Nat)
  | releaseOutputBuffer (render : Bool)
  | noAction
deriving DecidableEq, Repr

/-- One iteration of the render pump of `start_decoder`
(`webrtc/decoder/mod.rs`, the `loop` after the feeder is spawned):
check the peer-connection state, poll the lifecycle channel, and either
break (`none`), rebind the output surface, disable rendering, or drain
one output buffer with the current render flag.  Returns the new render
flag and the decoder call made. -/
def renderPumpStep (connected render : Bool) (r : TryRecvResult) :
    Option (Bool × RenderAction) :=
  if connected = false then none
  else
    match r with
    | .ok .MainActivityDestroyed => none
    | .ok (.SurfaceCreated w) => some (true, .setOutputSurface w)
    | .ok .SurfaceDestroyed => some (false, .noAction)
    | .disconnected => none
    | .empty => some (render, .releaseOutputBuffer render)

/-- Run the render pump (with a connected peer) over a list of channel
poll results, stopping at the first break; returns the final render flag
and the decoder calls made, in order. -/
def renderPumpRun (render : Bool) : List TryRecvResult → Bool × List RenderAction
  | [] => (render, [])
  | r :: rs =>
    match renderPumpStep true render r with
    | none => (render, [])
    | some (render1, a) =>
      let rest := renderPumpRun render1 rs
      (rest.1, a :: rest.2)

/-- The error `start_decoder` returns when its render-pump loop breaks:
the loop breaks when the peer connection leaves `Connected`, on
`MainActivityDestroyed`, or on a closed lifecycle channel, and the
function then returns `Err(DecoderError::ApplicationClosed)`
unconditionally (`webrtc/decoder/mod.rs`, end of `start_decoder`). -/
def renderPumpExit (connected : Bool) (r : TryRecvResult) : Option DecoderError :=
  if connected = false then some DecoderError.ApplicationClosed
  else
    match r with
    | .ok .MainActivityDestroyed => some DecoderError.ApplicationClosed
    | .disconnected => some DecoderError.ApplicationClosed
    | _ => none

/-- Constant `NALU_DELIMITER` from `webrtc/decoder/h264.rs`. -/
def NALU_DELIMITER : List Nat := [0, 0, 0, 1]

/-- The `H264Decoder` configuration gatherer of `webrtc/decoder/h264.rs`. -/
structure H264Decoder where
  sps : Option (List Nat)
  pps : Option (List Nat)
  codec_config : Option (List Nat)
  resolution : Option (Int × Int)
deriving DecidableEq, Repr

/-- `H264Decoder::default()`: all fields start as `None`. -/
def H264Decoder.default : H264Decoder :=
  { sps := none, pps := none, codec_config := none, resolution := none }

/-- `H264Decoder::init_done` (`webrtc/decoder/h264.rs`). -/
def H264Decoder.init_done (d : H264Decoder) : Bool :=
  d.codec_config.isSome && d.resolution.isSome

/-- `H264Decoder::build_codec_config` (`webrtc/decoder/h264.rs`). -/
def H264Decoder.build_codec_config (d : H264Decoder) : H264Decoder :=
  match d.sps, d.pps, d.resolution with
  | some sps, some pps, some _ =>
    { d with codec_config := some (NALU_DELIMITER ++ sps ++ NALU_DELIMITER ++ pps) }
  | _, _, _ => d

/-- Constant `AMEDIACODEC_BUFFER_FLAG_CODEC_CONFIG` of the NDK (value 2),
used by `MediaEngine::submit_codec_config`. -/
def AMEDIACODEC_BUFFER_FLAG_CODEC_CONFIG : Nat := 2

/-- The arguments of an `AMediaCodec_queueInputBuffer` call together with
the input-buffer contents at queue time. -/
structure QueuedInput where
  num_bytes : Nat
  present_time_micros : Nat
  flags : Nat
  buffer : List Nat
deriving DecidableEq, Repr

/-- `MediaEngine::submit_codec_config` (`media/engine.rs`): with the
dequeued input buffer holding `input_buffer`, copy
`min_len = min (data.len) (input_buffer.len)` bytes of `data` into the
front of the buffer and queue it with length `min_len`, timestamp 0 and
the codec-config flag.  The data path has no error branch: the only
fallible steps are the external dequeue/queue FFI calls, so oversized
`data` is silently truncated rather than reported. -/
def MediaEngine.submit_codec_config (data input_buffer : List Nat) : QueuedInput :=
  let min_len := min data.length input_buffer.length
  { num_bytes := min_len, present_time_micros := 0,
    flags := AMEDIACODEC_BUFFER_FLAG_CODEC_CONFIG,
    buffer := data.take min_len ++ input_buffer.drop min_len }

/-- Modelled from the spec: the `H264Depacketizer` of the external
webrtc-helper crate is not part of this repository's sources.  Per §4.2
and §3 of the spec, a finished access unit written into the caller's
buffer is one reassembled H.264 NAL unit with start-code prefix: the
4-byte delimiter followed by the NAL bytes, which begin with the 1-byte
NAL header carrying the type field. -/
def H264Depacketizer.completedUnit (header : Nat) (rbytes : List Nat) : List Nat :=
  NALU_DELIMITER ++ (header :: rbytes)

/-- The `MediaFormat` key-value set as populated by `create_media_engine`
(`media/format.rs` wrapper; only the keys the bootstrap sets). -/
structure MediaFormat where
  mime_type : Option MimeType
  realtime_priority : Bool
  low_latency : Bool
  resolution : Option (Int × Int)
  max_resolution : Option (Int × Int)
deriving DecidableEq, Repr

/-- The constructed decoder session as observable at the end of
`create_media_engine`: the format it was configured with, the surface
passed to `MediaEngine::initialize`, the encoder flag, and the log of
input-buffer submissions made so far (data plus queue flags). -/
structure BuiltEngine where
  format : MediaFormat
  surface : Option Nat
  is_encoder : Bool
  submissions : List (List Nat × Nat)
deriving DecidableEq, Repr

/-- Reorder-buffer/depacketizer outcome for one bootstrap iteration that
polled the network (the `Err(TryRecvError::Empty)` arm of
`create_media_engine`). -/
inductive ReorderOutcome where
  | pushOk (nalu : List Nat)
  | needMoreInput
  | depacketizationError
  | headerParsingError
  | trackRemoteReadError
  | packetTooShort
  | bufferFull
  | otherError
deriving DecidableEq, Repr

/-- Result of `receiver.try_recv()` in the bootstrap loop; when the
channel is empty the loop falls through to `reorder_buffer.recv()`,
whose outcome is carried alongside. -/
inductive BootstrapRecv where
  | ok (msg : MediaPlayerEvent)
  | disconnected
  | empty (outcome : ReorderOutcome)
deriving DecidableEq, Repr

/-- Mutable state of the `create_media_engine` loop. -/
structure BootstrapState where
  native_window : Option Nat
  decoder : H264Decoder
  pli : RateLimitedPli
deriving DecidableEq, Repr

/-- Result of one `create_media_engine` loop iteration: continue with a
new state (recording whether `pli.send` was called), return the built
engine, or return an error. -/
inductive BootstrapOutcome where
  | cont (s : BootstrapState) (pli_called : Bool)
  | done (engine : BuiltEngine)
  | fail (e : DecoderError)
deriving DecidableEq, Repr

/-- One iteration of the bootstrap loop of `create_media_engine`
(`webrtc/decoder/mod.rs`): abort if the peer connection is not
`Connected`; if both a native window and a fully decoded configuration
(`decoder.init_done()`) exist, build the format (low-latency flag only
from API level 30), initialize the engine against the current surface,
submit the codec-config bytes and return the engine; otherwise handle
one lifecycle event or one network payload.  `read_payload` abstracts
`H264Decoder::read_payload`, whose NAL scanning lives in the external
webrtc-helper crate; `window_new` is the result of `NativeWindow::new`
for a `SurfaceCreated` event. -/
def bootstrapStep (read_payload : H264Decoder → List Nat → H264Decoder × Bool)
    (api_level : Nat) (mime_type : MimeType) (connected : Bool) (now : Nat)
    (s : BootstrapState) (recv : BootstrapRecv) (window_new : Option Nat) :
    BootstrapOutcome :=
  if connected = false then .fail DecoderError.ApplicationClosed
  else if s.native_window.isSome && s.decoder.init_done then
    let format0 : MediaFormat :=
      { mime_type := some mime_type, realtime_priority := true,
        low_latency := decide (30 ≤ api_level),
        resolution := none, max_resolution := none }
    let format :=
      match s.decoder.resolution with
      | some r => { format0 with resolution := some r, max_resolution := some r }
      | none => format0
    let submissions :=
      match s.decoder.codec_config with
      | some cc => [(cc, AMEDIACODEC_BUFFER_FLAG_CODEC_CONFIG)]
      | none => []
    .done { format := format, surface := s.native_window, is_encoder := false,
            submissions := submissions }
  else
    match recv with
    | .ok .MainActivityDestroyed => .fail DecoderError.ApplicationClosed
    | .ok (.SurfaceCreated _) =>
      match window_new with
      | some w => .cont { s with native_window := some w } false
      | none => .fail DecoderError.NativeWindowCreate
    | .ok .SurfaceDestroyed => .cont { s with native_window := none } false
    | .disconnected => .fail DecoderError.ApplicationClosed
    | .empty outcome =>
      match outcome with
      | .pushOk nalu =>
        let rp := read_payload s.decoder nalu
        if rp.2 then .cont { s with decoder := rp.1 } false
        else .cont { s with decoder := rp.1, pli := (s.pli.send now).2 } true
      | .needMoreInput => .cont s false
      | .depacketizationError => .cont { s with pli := (s.pli.send now).2 } true
      | .headerParsingError => .cont { s with pli := (s.pli.send now).2 } true
      | .trackRemoteReadError => .cont { s with pli := (s.pli.send now).2 } true
      | .packetTooShort => .cont s false
      | .bufferFull => .cont { s with pli := (s.pli.send now).2 } true
      | .otherError => .cont s false

/-- C1: in the steady-state feeder, while the reference-frame gate is
`AwaitingKeyFrame` (`has_reference_frame = false`), a finished access
unit whose leading NAL-type field (`nalu[4] & 0x1F`) is not the IDR
marker 5 is never submitted to the decoder, triggers a `pli.send`
(actual write subject to the rate limiter) and resets the depacketizer;
a unit whose leading NAL type is 5 flips the gate to `Streaming` and is
submitted to the decoder input. -/
theorem feeder_awaiting_keyframe_gate (pli : RateLimitedPli) (now : Nat)
    (nalu : List Nat) (q : Bool) (b : Nat) (hb : nalu[4]? = some b) :
    (b &&& NALU_TYPE_BITMASK ≠ NALU_TYPE_IDR_PIC →
      feederStep false pli now (FeederInput.pushOk nalu q) =
        some { has_reference_frame := false, pli := (pli.send now).2, submitted := none,
               pli_called := true, pli_sent := (pli.send now).1, reader_reset := true })
    ∧ (b &&& NALU_TYPE_BITMASK = NALU_TYPE_IDR_PIC →
      feederStep false pli now (FeederInput.pushOk nalu q) =
        some { has_reference_frame := true, pli := pli, submitted := some nalu,
               pli_called := false, pli_sent := false, reader_reset := true }) := by
  constructor
  · intro h
    simp [feederStep, hb, h]
  · intro h
    simp [feederStep, hb, h]

/-- Witness for C1 at a concrete non-IDR access unit (leading NAL type
`65 & 0x1F = 1`): not submitted, PLI written, depacketizer reset. -/
theorem feeder_awaiting_keyframe_gate_witness :
    feederStep false (RateLimitedPli.new 50) 1000
        (FeederInput.pushOk [0, 0, 0, 1, 65] true) =
      some { has_reference_frame := false,
             pli := ((RateLimitedPli.new 50).send 1000).2, submitted := none,
             pli_called := true, pli_sent := ((RateLimitedPli.new 50).send 1000).1,
             reader_reset := true } :=
  (feeder_awaiting_keyframe_gate (RateLimitedPli.new 50) 1000 [0, 0, 0, 1, 65] true 65
    (by decide)).1 (by decide)

/-- C4 counterexample: a `PacketTooShort` reorder-buffer error is NOT
handled with a PLI send and a gate reset — at this concrete input the
feeder leaves the gate `Streaming`, calls no `pli.send` and resets
nothing, contradicting the claim that every listed transient error
(including payload-too-short) triggers PLI + gate reset. -/
theorem feeder_packet_too_short_counterexample :
    feederStep true (RateLimitedPli.new 50) 1000 FeederInput.packetTooShort =
      some { has_reference_frame := true, pli := RateLimitedPli.new 50, submitted := none,
             pli_called := false, pli_sent := false, reader_reset := false } := rfl

/-- C4 (amended): header parse failure, track-read failure,
depacketization fragment errors and reorder-buffer-full are handled
locally with a `pli.send` and a gate reset (`has_reference_frame`
forced to `false`) plus a depacketizer reset, the loop continuing;
payload-too-short alone is ignored (no PLI, no gate reset, no
depacketizer reset). -/
theorem feeder_transient_error_handling (hasRef : Bool) (pli : RateLimitedPli) (now : Nat) :
    (feederStep hasRef pli now FeederInput.headerParsingError =
      some { has_reference_frame := false, pli := (pli.send now).2, submitted := none,
             pli_called := true, pli_sent := (pli.send now).1, reader_reset := true })
  ∧ (feederStep hasRef pli now FeederInput.trackRemoteReadError =
      some { has_reference_frame := false, pli := (pli.send now).2, submitted := none,
             pli_called := true, pli_sent := (pli.send now).1, reader_reset := true })
  ∧ (feederStep hasRef pli now FeederInput.depacketizationError =
      some { has_reference_frame := false, pli := (pli.send now).2, submitted := none,
             pli_called := true, pli_sent := (pli.send now).1, reader_reset := true })
  ∧ (feederStep hasRef pli now FeederInput.bufferFull =
      some { has_reference_frame := false, pli := (pli.send now).2, submitted := none,
             pli_called := true, pli_sent := (pli.send now).1, reader_reset := true })
  ∧ (feederStep hasRef pli now FeederInput.packetTooShort =
      some { has_reference_frame := hasRef, pli := pli, submitted := none,
             pli_called := false, pli_sent := false, reader_reset := false }) :=
  ⟨rfl, rfl, rfl, rfl, rfl⟩

/-- C5 counterexample: with the gate in `Streaming`, a failed decoder
submission (`queue_ok = false`) does NOT invalidate the gate — at this
concrete input `has_reference_frame` stays `true`, contradicting the
claimed `Streaming → AwaitingKeyFrame` transition. -/
theorem feeder_queue_failure_counterexample :
    feederStep true (RateLimitedPli.new 50) 1000
        (FeederInput.pushOk [0, 0, 0, 1, 101] false) =
      some { has_reference_frame := true, pli := RateLimitedPli.new 50,
             submitted := some [0, 0, 0, 1, 101],
             pli_called := false, pli_sent := false, reader_reset := true } := rfl

/-- C5 (amended): in `Streaming`, a failed `queue_input_buffer` is only
logged: the gate stays `Streaming`, no PLI is triggered, and the loop
continues with a fresh input buffer — the outcome is identical whether
the submission succeeds or fails. -/
theorem feeder_streaming_queue_failure (pli : RateLimitedPli) (now : Nat)
    (nalu : List Nat) (q : Bool) :
    feederStep true pli now (FeederInput.pushOk nalu q) =
      some { has_reference_frame := true, pli := pli, submitted := some nalu,
             pli_called := false, pli_sent := false, reader_reset := true } := by
  simp [feederStep]

/-- C7: a `PacketTooShort` error from the reorder buffer is benign: the
feeder sends no PLI, leaves the reference-frame gate and the
depacketizer's accumulated state untouched, and continues with the next
`recv`. -/
theorem feeder_packet_too_short_benign (hasRef : Bool) (pli : RateLimitedPli) (now : Nat) :
    feederStep hasRef pli now FeederInput.packetTooShort =
      some { has_reference_frame := hasRef, pli := pli, submitted := none,
             pli_called := false, pli_sent := false, reader_reset := false } := rfl

/-- C9: every access unit the depacketizer can finish — a 4-byte
start-code prefix followed by the NAL bytes beginning with the header
byte — has length at least 5, so the `nalu[4]` read in the
`AwaitingKeyFrame` inspection is in bounds and the panic branch of the
indexing (modelled as `none`) is unreachable. -/
theorem feeder_nalu_index_in_bounds (header : Nat) (rbytes : List Nat)
    (pli : RateLimitedPli) (now : Nat) (q : Bool) :
    5 ≤ (H264Depacketizer.completedUnit header rbytes).length
  ∧ (feederStep false pli now
      (FeederInput.pushOk (H264Depacketizer.completedUnit header rbytes) q)).isSome = true := by
  constructor
  · simp [H264Depacketizer.completedUnit, NALU_DELIMITER]
  · have hb : (H264Depacketizer.completedUnit header rbytes)[4]? = some header := by
      simp [H264Depacketizer.completedUnit, NALU_DELIMITER]
    by_cases hh : header &&& NALU_TYPE_BITMASK = NALU_TYPE_IDR_PIC <;>
      simp [feederStep, hb, hh]

/-- C10: `MediaEngine::submit_codec_config` copies exactly
`min (data length) (input-buffer length)` bytes to the front of the
input buffer and queues it with the codec-config flag; when the data is
longer than the buffer the queued length is the buffer length — the
config is silently truncated, with no overflow error path. -/
theorem submit_codec_config_copies_min (data buf : List Nat) :
    (MediaEngine.submit_codec_config data buf).num_bytes = min data.length buf.length
  ∧ (MediaEngine.submit_codec_config data buf).flags = AMEDIACODEC_BUFFER_FLAG_CODEC_CONFIG
  ∧ (MediaEngine.submit_codec_config data buf).buffer.take (min data.length buf.length)
      = data.take (min data.length buf.length)
  ∧ (buf.length < data.length →
      (MediaEngine.submit_codec_config data buf).num_bytes = buf.length) := by
  refine ⟨rfl, rfl, ?_, ?_⟩
  · show (data.take (min data.length buf.length) ++
        buf.drop (min data.length buf.length)).take (min data.length buf.length)
      = data.take (min data.length buf.length)
    rw [List.take_append_of_le_length, List.take_take, Nat.min_self]
    simp [List.length_take]
  · intro h
    show min data.length buf.length = buf.length
    omega

/-- Witness for C10 at concrete oversized data: three config bytes into a
two-byte input buffer queue exactly the buffer length. -/
theorem submit_codec_config_copies_min_witness :
    (MediaEngine.submit_codec_config [1, 2, 3] [0, 0]).num_bytes = [0, 0].length :=
  (submit_codec_config_copies_min [1, 2, 3] [0, 0]).2.2.2 (by decide)

/-- Helper: starting with rendering disabled, as long as no
`SurfaceCreated` event is polled, every output-buffer release the
render pump makes passes `render = false`. -/
theorem renderPumpRun_releases_false (rs : List TryRecvResult)
    (h : ∀ v, TryRecvResult.ok (MediaPlayerEvent.SurfaceCreated v) ∉ rs) :
    ∀ b, RenderAction.releaseOutputBuffer b ∈ (renderPumpRun false rs).2 → b = false := by
  induction rs with
  | nil =>
    intro b hb
    simp [renderPumpRun] at hb
  | cons r rs ih =>
    have htail : ∀ v, TryRecvResult.ok (MediaPlayerEvent.SurfaceCreated v) ∉ rs :=
      fun v hv => h v (List.mem_cons_of_mem _ hv)
    intro b hb
    cases r with
    | ok msg =>
      cases msg with
      | MainActivityDestroyed =>
        simp [renderPumpRun, renderPumpStep] at hb
      | SurfaceCreated v =>
        exact absurd (List.mem_cons_self _ _) (h v)
      | SurfaceDestroyed =>
        simp only [renderPumpRun, renderPumpStep] at hb
        simp at hb
        exact ih htail b hb
    | disconnected =>
      simp [renderPumpRun, renderPumpStep] at hb
    | empty =>
      simp only [renderPumpRun, renderPumpStep] at hb
      simp at hb
      rcases hb with hb | hb
      · exact hb
      · exact ih htail b hb

/-- C6: a `SurfaceDestroyed` event makes the render pump clear the
render flag; with rendering disabled, every subsequent channel poll that
comes back empty still drains one output buffer but with
`render = false`, and this persists over any run containing no
`SurfaceCreated` event; a `SurfaceCreated` event with a new handle sets
the render flag back to `true` and rebinds the decoder's output
surface. -/
theorem render_pump_surface_lifecycle (render0 : Bool) (w : Nat) (rs : List TryRecvResult)
    (h : ∀ v, TryRecvResult.ok (MediaPlayerEvent.SurfaceCreated v) ∉ rs) :
    renderPumpStep true render0 (TryRecvResult.ok MediaPlayerEvent.SurfaceDestroyed) =
      some (false, RenderAction.noAction)
  ∧ (∀ b, RenderAction.releaseOutputBuffer b ∈ (renderPumpRun false rs).2 → b = false)
  ∧ renderPumpStep true false TryRecvResult.empty =
      some (false, RenderAction.releaseOutputBuffer false)
  ∧ renderPumpStep true false (TryRecvResult.ok (MediaPlayerEvent.SurfaceCreated w)) =
      some (true, RenderAction.setOutputSurface w) :=
  ⟨rfl, renderPumpRun_releases_false rs h, rfl, rfl⟩

/-- Witness for C6: a concrete run of two empty polls after the surface
is destroyed. -/
theorem render_pump_surface_lifecycle_witness :
    renderPumpStep true true (TryRecvResult.ok MediaPlayerEvent.SurfaceDestroyed) =
      some (false, RenderAction.noAction)
  ∧ (∀ b, RenderAction.releaseOutputBuffer b ∈
        (renderPumpRun false [TryRecvResult.empty, TryRecvResult.empty]).2 → b = false)
  ∧ renderPumpStep true false TryRecvResult.empty =
      some (false, RenderAction.releaseOutputBuffer false)
  ∧ renderPumpStep true false (TryRecvResult.ok (MediaPlayerEvent.SurfaceCreated 7)) =
      some (true, RenderAction.setOutputSurface 7) :=
  render_pump_surface_lifecycle true 7 [TryRecvResult.empty, TryRecvResult.empty]
    (by simp)

/-- C8 counterexample: when the peer connection leaves `Connected`, both
the render-pump loop of `start_decoder` and the bootstrap loop of
`create_media_engine` terminate with `DecoderError.ApplicationClosed` —
the very same error value returned for application shutdown — so no
distinct `WebRtcDisconnected` error exists, contradicting the claim. -/
theorem disconnect_error_counterexample :
    renderPumpExit false TryRecvResult.empty = some DecoderError.ApplicationClosed
  ∧ renderPumpExit false TryRecvResult.empty =
      renderPumpExit true (TryRecvResult.ok MediaPlayerEvent.MainActivityDestroyed)
  ∧ bootstrapStep (fun d _ => (d, true)) 30 MimeType.VideoH264 false 0
      { native_window := none, decoder := H264Decoder.default, pli := RateLimitedPli.new 50 }
      (BootstrapRecv.empty ReorderOutcome.needMoreInput) none =
      BootstrapOutcome.fail DecoderError.ApplicationClosed :=
  ⟨rfl, rfl, rfl⟩

/-- C8 (amended): if the peer connection transitions out of `Connected`,
the pipeline aborts with the terminal error `ApplicationClosed` — the
same `DecoderError` value used for application shutdown; the
`DecoderError` enum has no separate disconnect variant. -/
theorem disconnect_returns_application_closed :
    (∀ r, renderPumpExit false r = some DecoderError.ApplicationClosed)
  ∧ (∀ rp api mt now s recv w, bootstrapStep rp api mt false now s recv w =
      BootstrapOutcome.fail DecoderError.ApplicationClosed) :=
  ⟨fun _ => rfl, fun _ _ _ _ _ _ _ => rfl⟩

/-- `send` never changes the configured interval. -/
theorem RateLimitedPli.send_interval (p : RateLimitedPli) (now : Nat) :
    ((p.send now).2).pli_interval = p.pli_interval := by
  rw [RateLimitedPli.send]
  split_ifs <;> rfl

/-- `last_pli_time` never decreases across a `send` call. -/
theorem RateLimitedPli.send_last_le (p : RateLimitedPli) (now : Nat) :
    p.last_pli_time ≤ ((p.send now).2).last_pli_time := by
  rw [RateLimitedPli.send]
  split_ifs with h1 h2
  · exact h1
  · exact le_refl _
  · exact le_refl _

/-- A call that actually writes a PLI is more than the interval after the
previous actual write. -/
theorem RateLimitedPli.send_sent_lb (p : RateLimitedPli) (now : Nat)
    (h : (p.send now).1 = true) : p.last_pli_time + p.pli_interval < now := by
  rw [RateLimitedPli.send] at h
  split_ifs at h with h1 h2
  omega

/-- After an actual write, `last_pli_time` is the call time. -/
theorem RateLimitedPli.send_sent_state (p : RateLimitedPli) (now : Nat)
    (h : (p.send now).1 = true) : ((p.send now).2).last_pli_time = now := by
  rw [RateLimitedPli.send] at h ⊢
  split_ifs at h ⊢ with h1 h2
  rfl

/-- Every actual write in a run happens more than the interval after the
initial `last_pli_time`. -/
theorem RateLimitedPli.sendMany_sent_lb (ts : List Nat) :
    ∀ (p : RateLimitedPli), ∀ x ∈ (p.sendMany ts).1, x.2 = true →
      p.last_pli_time + p.pli_interval < x.1 := by
  induction ts with
  | nil =>
    intro p x hx
    simp [RateLimitedPli.sendMany] at hx
  | cons t ts ih =>
    intro p x hx hsent
    simp only [RateLimitedPli.sendMany] at hx
    rcases List.mem_cons.mp hx with hx | hx
    · subst hx
      exact RateLimitedPli.send_sent_lb p t hsent
    · have h2 := ih (p.send t).2 x hx hsent
      have h3 := RateLimitedPli.send_last_le p t
      have h4 := RateLimitedPli.send_interval p t
      omega

/-- Any two actual writes in a run are more than the interval apart. -/
theorem RateLimitedPli.sendMany_pairwise (ts : List Nat) :
    ∀ (p : RateLimitedPli),
      List.Pairwise (fun a b => a.2 = true → b.2 = true → a.1 + p.pli_interval < b.1)
        (p.sendMany ts).1 := by
  induction ts with
  | nil =>
    intro p
    simp [RateLimitedPli.sendMany]
  | cons t ts ih =>
    intro p
    simp only [RateLimitedPli.sendMany]
    refine List.Pairwise.cons ?_ ?_
    · intro x hx hsent hxsent
      have hstate := RateLimitedPli.send_sent_state p t hsent
      have h2 := RateLimitedPli.sendMany_sent_lb ts (p.send t).2 x hx hxsent
      have h4 := RateLimitedPli.send_interval p t
      omega
    · simpa only [RateLimitedPli.send_interval] using ih (p.send t).2

/-- When each call time is more than the interval after the previous
one, every call actually writes. -/
theorem RateLimitedPli.sendMany_all_sent (ts : List Nat) :
    ∀ (p : RateLimitedPli), spacedB p.pli_interval p.last_pli_time ts = true →
      ∀ x ∈ (p.sendMany ts).1, x.2 = true := by
  induction ts with
  | nil =>
    intro p _ x hx
    simp [RateLimitedPli.sendMany] at hx
  | cons t ts ih =>
    intro p hs x hx
    simp only [spacedB, Bool.and_eq_true, decide_eq_true_eq] at hs
    obtain ⟨h1, h2⟩ := hs
    have hsent : (p.send t).1 = true := by
      rw [RateLimitedPli.send]
      split_ifs with hle hlt
      · rfl
      · exact absurd (by omega : p.pli_interval < t - p.last_pli_time) hlt
      · exact absurd (by omega : p.last_pli_time ≤ t) hle
    simp only [RateLimitedPli.sendMany] at hx
    rcases List.mem_cons.mp hx with hx | hx
    · subst hx
      exact hsent
    · have hstate := RateLimitedPli.send_sent_state p t hsent
      have hint := RateLimitedPli.send_interval p t
      apply ih (p.send t).2 _ x hx
      rw [hint, hstate]
      exact h2

/-- C2: for every sequence of `RateLimitedPli::send` calls, (i) any two
calls that actually write a PLI are more than the configured interval
apart, so at most one PLI is written within any single interval window
no matter how many triggering events occur in it; (ii) when successive
call times are each more than the interval after the previous actual
write, every call writes; (iii) a single call whose elapsed time since
the last actual write is at most the interval is a no-op. -/
theorem pli_rate_limiter (p : RateLimitedPli) (ts : List Nat) :
    List.Pairwise (fun a b => a.2 = true → b.2 = true → a.1 + p.pli_interval < b.1)
      (p.sendMany ts).1
  ∧ (spacedB p.pli_interval p.last_pli_time ts = true →
      ∀ x ∈ (p.sendMany ts).1, x.2 = true)
  ∧ (∀ now, now - p.last_pli_time ≤ p.pli_interval → p.send now = (false, p)) := by
  refine ⟨RateLimitedPli.sendMany_pairwise ts p, RateLimitedPli.sendMany_all_sent ts p, ?_⟩
  intro now hle
  rw [RateLimitedPli.send]
  split_ifs with h1 h2
  · omega
  · rfl
  · rfl

/-- Witness for C2: with a 50ms interval, call times 60, 120, 200 (each
more than 50 apart, the first more than 50 after the epoch) all write;
a lone call at time 30 (elapsed 30 ≤ 50) is a no-op. -/
theorem pli_rate_limiter_witness :
    (∀ x ∈ ((RateLimitedPli.new 50).sendMany [60, 120, 200]).1, x.2 = true)
  ∧ (RateLimitedPli.new 50).send 30 = (false, RateLimitedPli.new 50) :=
  ⟨(pli_rate_limiter (RateLimitedPli.new 50) [60, 120, 200]).2.1 (by decide),
   (pli_rate_limiter (RateLimitedPli.new 50) [60, 120, 200]).2.2 30 (by decide)⟩

/-- Helper: when the peer is connected and both a native window and the
decoded configuration are present, one bootstrap iteration builds the
engine: format from the mime type, API level and resolution, surface
from the current window, codec-config bytes as the only submission. -/
theorem bootstrapStep_build (rp : H264Decoder → List Nat → H264Decoder × Bool)
    (api : Nat) (mt : MimeType) (now : Nat) (s : BootstrapState)
    (recv : BootstrapRecv) (w : Option Nat) (cc : List Nat) (res : Int × Int)
    (hw : s.native_window.isSome = true)
    (hcc : s.decoder.codec_config = some cc)
    (hres : s.decoder.resolution = some res) :
    bootstrapStep rp api mt true now s recv w = BootstrapOutcome.done
      { format := { mime_type := some mt, realtime_priority := true,
                    low_latency := decide (30 ≤ api),
                    resolution := some res, max_resolution := some res },
        surface := s.native_window, is_encoder := false,
        submissions := [(cc, AMEDIACODEC_BUFFER_FLAG_CODEC_CONFIG)] } := by
  have hd : s.decoder.init_done = true := by
    simp [H264Decoder.init_done, hcc, hres]
  simp [bootstrapStep, hw, hd, hcc, hres]

/-- C3: the bootstrap sequencer never constructs the decoder session
unless both a non-null native window and the decoded configuration
(`init_done`: codec-config bytes plus resolution) exist, and any built
session is initialized against the current surface with the codec-config
bytes as its only submission so far (hence before any frame data);
conversely, once the peer is connected and both exist, the iteration
returns the built session — a one-shot terminal transition. -/
theorem create_media_engine_bootstrap :
    (∀ rp api mt connected now s recv w e,
        bootstrapStep rp api mt connected now s recv w = BootstrapOutcome.done e →
        s.native_window.isSome = true ∧ s.decoder.init_done = true ∧
        e.surface = s.native_window ∧
        ∃ cc, s.decoder.codec_config = some cc ∧
          e.submissions = [(cc, AMEDIACODEC_BUFFER_FLAG_CODEC_CONFIG)])
  ∧ (∀ rp api mt now s recv w,
        s.native_window.isSome = true → s.decoder.init_done = true →
        ∃ e, bootstrapStep rp api mt true now s recv w = BootstrapOutcome.done e ∧
          e.surface = s.native_window) := by
  constructor
  · intro rp api mt connected now s recv w e h
    cases connected with
    | false => simp [bootstrapStep] at h
    | true =>
      by_cases hcond : (s.native_window.isSome && s.decoder.init_done) = true
      · rw [Bool.and_eq_true] at hcond
        obtain ⟨hw, hd⟩ := hcond
        have hd2 := hd
        simp only [H264Decoder.init_done, Bool.and_eq_true] at hd2
        obtain ⟨cc, hcc⟩ := Option.isSome_iff_exists.mp hd2.1
        obtain ⟨res, hres⟩ := Option.isSome_iff_exists.mp hd2.2
        have hb := bootstrapStep_build rp api mt now s recv w cc res hw hcc hres
        rw [hb] at h
        injection h with he
        refine ⟨hw, hd, ?_, cc, hcc, ?_⟩
        · rw [← he]
        · rw [← he]
      · exfalso
        simp only [bootstrapStep] at h
        rw [if_neg (by simp), if_neg (by simp [hcond])] at h
        cases recv with
        | ok msg =>
          cases msg with
          | MainActivityDestroyed => simp at h
          | SurfaceCreated v =>
            cases w with
            | none => simp at h
            | some u => simp at h
          | SurfaceDestroyed => simp at h
        | disconnected => simp at h
        | empty outcome =>
          cases outcome with
          | pushOk nalu =>
            by_cases hq : (rp s.decoder nalu).2 = true
            · simp [hq] at h
            · simp [hq] at h
          | needMoreInput => simp at h
          | depacketizationError => simp at h
          | headerParsingError => simp at h
          | trackRemoteReadError => simp at h
          | packetTooShort => simp at h
          | bufferFull => simp at h
          | otherError => simp at h
  · intro rp api mt now s recv w hw hd
    have hd2 := hd
    simp only [H264Decoder.init_done, Bool.and_eq_true] at hd2
    obtain ⟨cc, hcc⟩ := Option.isSome_iff_exists.mp hd2.1
    obtain ⟨res, hres⟩ := Option.isSome_iff_exists.mp hd2.2
    exact ⟨_, bootstrapStep_build rp api mt now s recv w cc res hw hcc hres, rfl⟩

/-- Witness for C3: a concrete state with window handle 7, codec-config
bytes and a 64x48 resolution builds the engine against that window. -/
theorem create_media_engine_bootstrap_witness :
    ∃ e, bootstrapStep (fun d _ => (d, true)) 30 MimeType.VideoH264 true 0
        { native_window := some 7,
          decoder := { sps := none, pps := none, codec_config := some [0, 0, 0, 1, 103],
                       resolution := some (64, 48) },
          pli := RateLimitedPli.new 50 }
        (BootstrapRecv.empty ReorderOutcome.needMoreInput) none =
        BootstrapOutcome.done e ∧ e.surface = some 7 :=
  create_media_engine_bootstrap.2 (fun d _ => (d, true)) 30 MimeType.VideoH264 0
    { native_window := some 7,
      decoder := { sps := none, pps := none, codec_config := some [0, 0, 0, 1, 103],
                   resolution := some (64, 48) },
      pli := RateLimitedPli.new 50 }
    (BootstrapRecv.empty ReorderOutcome.needMoreInput) none (by decide) (by decide)
